import Mathlib

/-!
Shallow embedding of the genealogy analysis program (`gedcom_parser.py`).

Python values are modelled as follows: `datetime.date` becomes the `SDate`
structure (a triple of naturals, compared lexicographically exactly as
Python compares dates); Python dicts (insertion ordered, unique keys)
become association lists, with `dictGet` modelling `dict.get` and
`dictIndex` modelling `dict[k]` (which raises `KeyError`); raised Python
exceptions are modelled with `Except String`; Python float arithmetic in
the analysis averages is modelled with `Rat`; `date.today()` is passed in
as an explicit `today` parameter.  Recursion depth in the one genuinely
recursive routine (`analyze_generation_span`) is modelled with an explicit
fuel argument playing the role of the Python recursion limit: exhausting
the fuel produces the `RecursionError` that CPython raises when the
recursion limit is exceeded.
-/

/-- Model of `datetime.date`: a (year, month, day) triple.  Python compares
dates lexicographically on this triple. -/
structure SDate where
  year : Nat
  month : Nat
  day : Nat
deriving Repr, DecidableEq

/-- Strict comparison of dates, as the Python `<` on `datetime.date`
(lexicographic on year, month, day). -/
def SDate.lt (a b : SDate) : Bool :=
  if a.year < b.year then true
  else if b.year < a.year then false
  else if a.month < b.month then true
  else if b.month < a.month then false
  else decide (a.day < b.day)

/-- Zero padding to width 2, as in Python date formatting. -/
def pad2 (n : Nat) : String :=
  if n < 10 then "0" ++ toString n else toString n

/-- Zero padding to width 4, as in Python date formatting. -/
def pad4 (n : Nat) : String :=
  if n < 10 then "000" ++ toString n
  else if n < 100 then "00" ++ toString n
  else if n < 1000 then "0" ++ toString n
  else toString n

/-- `str(d)` for a Python `datetime.date`: ISO format YYYY-MM-DD. -/
def dateStr (d : SDate) : String :=
  pad4 d.year ++ "-" ++ pad2 d.month ++ "-" ++ pad2 d.day

/-- The `Event` dataclass. -/
structure Event where
  type : String
  date : Option SDate := none
  place : Option String := none
deriving Repr, DecidableEq

/-- The `Individual` dataclass.  `residences` keeps the raw
(date, place) pairs, which is what `_parse_individual` actually stores
there (the dicts from `_get_residence` are passed through unconverted). -/
structure Individual where
  id : String
  name : String
  sex : String
  birth : Option Event := none
  death : Option Event := none
  occupations : List String := []
  education : List String := []
  residences : List (Option String × Option String) := []
  families_as_spouse : List String := []
  families_as_child : List String := []
deriving Repr, DecidableEq

/-- The `Family` dataclass. -/
structure Family where
  id : String
  husband_id : Option String := none
  wife_id : Option String := none
  children_ids : List String := []
  marriage : Option Event := none
  divorce : Option Event := none
deriving Repr, DecidableEq

/-- `GedcomData`: the two insertion-ordered dicts, as association lists. -/
structure GedcomData where
  individuals : List (String × Individual) := []
  families : List (String × Family) := []
deriving Repr, DecidableEq

/-- Python `dict.get(k)`: `none` when the key is absent. -/
def dictGet {α : Type} (d : List (String × α)) (k : String) : Option α :=
  (d.find? (fun p => p.1 == k)).map (fun p => p.2)

/-- Python truthiness for an optional string: `None` and the empty string
are falsy. -/
def truthyStr (s : Option String) : Option String :=
  match s with
  | none => none
  | some s => if s = "" then none else some s

/-- Input to `_validate_name`: the gedcom library function `get_name` yields a
tuple of name parts, a plain string, or nothing. -/
inductive NameInput
  | nothing
  | str (s : String)
  | tup (parts : List String)
deriving Repr, DecidableEq

/-- Python `s.split()` (no separator): split on whitespace runs, dropping
empty tokens. -/
def pySplitWsAux : List Char → List Char → List String
  | [], acc => if acc = [] then [] else [String.mk acc.reverse]
  | c :: rest, acc =>
    if c.isWhitespace then
      if acc = [] then pySplitWsAux rest []
      else String.mk acc.reverse :: pySplitWsAux rest []
    else pySplitWsAux rest (c :: acc)

/-- Python `s.split()`. -/
def pySplitWs (s : String) : List String := pySplitWsAux s.data []

/-- Python join with a single space separator. -/
def pyJoinSpace : List String → String
  | [] => ""
  | [x] => x
  | x :: rest => x ++ " " ++ pyJoinSpace rest

/-- `GedcomParser._validate_name`.  The final fallback branch of the source
(`str(name)` for a value that is neither tuple nor string) is unreachable
for the three input shapes `get_name` produces and is not modelled. -/
def validateName : NameInput → String
  | NameInput.nothing => "Unknown"
  | NameInput.str s =>
    if s = "" then "Unknown"
    else pyJoinSpace (pySplitWs s)
  | NameInput.tup parts =>
    if parts = [] then "Unknown"
    else pyJoinSpace (parts.filter (fun p => p ≠ ""))

/-- `GedcomParser._validate_sex`: anything other than the exact strings
M and F collapses to U. -/
def validateSex (sex : Option String) : String :=
  match sex with
  | none => "U"
  | some s => if s = "M" ∨ s = "F" then s else "U"

/-- Value of an ASCII digit character, if it is one. -/
def digitVal (c : Char) : Option Nat :=
  if c.isDigit then some (c.toNat - 48) else none

/-- The strftime day directive: accepts a zero-padded or bare day 1..31,
or a single space followed by a digit 1..9, consuming as the regex
alternation does (two digits preferred, then one). -/
def parseDayTok : List Char → Option (Nat × List Char)
  | ' ' :: c :: rest =>
    match digitVal c with
    | some v => if 1 ≤ v then some (v, rest) else none
    | none => none
  | c1 :: c2 :: rest =>
    match digitVal c1, digitVal c2 with
    | some v1, some v2 =>
      let v := 10 * v1 + v2
      if 1 ≤ v ∧ v ≤ 31 then some (v, rest)
      else if 1 ≤ v1 then some (v1, c2 :: rest)
      else none
    | some v1, none =>
      if 1 ≤ v1 then some (v1, c2 :: rest) else none
    | none, _ => none
  | [c] =>
    match digitVal c with
    | some v => if 1 ≤ v then some (v, []) else none
    | none => none
  | [] => none

/-- One-or-more whitespace characters (a literal space in a strptime
format string matches a whitespace run). -/
def parseWsRun : List Char → Option (List Char)
  | c :: rest =>
    if c.isWhitespace then
      some (rest.dropWhile Char.isWhitespace)
    else none
  | [] => none

/-- English month abbreviations, as the strptime month-abbreviation
directive matches them (case-insensitively). -/
def monthAbbrevs : List String :=
  ["jan", "feb", "mar", "apr", "may", "jun",
   "jul", "aug", "sep", "oct", "nov", "dec"]

/-- The strftime abbreviated-month directive: three letters, any case. -/
def parseMonthTok : List Char → Option (Nat × List Char)
  | c1 :: c2 :: c3 :: rest =>
    let w := String.mk [c1.toLower, c2.toLower, c3.toLower]
    match monthAbbrevs.indexOf? w with
    | some i => some (i + 1, rest)
    | none => none
  | _ => none

/-- The strftime year directive: exactly four digits. -/
def parseYearTok : List Char → Option (Nat × List Char)
  | c1 :: c2 :: c3 :: c4 :: rest =>
    match digitVal c1, digitVal c2, digitVal c3, digitVal c4 with
    | some v1, some v2, some v3, some v4 =>
      some (1000 * v1 + 100 * v2 + 10 * v3 + v4, rest)
    | _, _, _, _ => none
  | _ => none

/-- Gregorian leap year, as `calendar.isleap`. -/
def isLeap (y : Nat) : Bool :=
  (y % 4 == 0 && !(y % 100 == 0)) || (y % 400 == 0)

/-- Days in a month of a given year. -/
def daysInMonth (y m : Nat) : Nat :=
  if m = 2 then (if isLeap y then 29 else 28)
  else if m = 4 ∨ m = 6 ∨ m = 9 ∨ m = 11 then 30
  else 31

/-- The validity check the `datetime.date` constructor performs: year in
1..9999, month in 1..12, day in 1..days-of-month; an invalid combination
raises `ValueError`, which `_validate_date` catches. -/
def dateValid (y m d : Nat) : Bool :=
  decide (1 ≤ y) && decide (y ≤ 9999) && decide (1 ≤ m) && decide (m ≤ 12) &&
  decide (1 ≤ d) && decide (d ≤ daysInMonth y m)

/-- `datetime.strptime(s, "%d %b %Y").date()`, as an option. -/
def strptimeDMY (s : String) : Option SDate :=
  match parseDayTok s.data with
  | none => none
  | some (d, r1) =>
    match parseWsRun r1 with
    | none => none
    | some r2 =>
      match parseMonthTok r2 with
      | none => none
      | some (m, r3) =>
        match parseWsRun r3 with
        | none => none
        | some r4 =>
          match parseYearTok r4 with
          | none => none
          | some (y, r5) =>
            if r5 = [] ∧ dateValid y m d = true then some ⟨y, m, d⟩ else none

/-- `datetime.strptime(s, "%b %Y").date().replace(day=1)` (strptime
already defaults the day to 1, so the replace is the identity). -/
def strptimeBY (s : String) : Option SDate :=
  match parseMonthTok s.data with
  | none => none
  | some (m, r1) =>
    match parseWsRun r1 with
    | none => none
    | some r2 =>
      match parseYearTok r2 with
      | none => none
      | some (y, r3) =>
        if r3 = [] ∧ dateValid y m 1 = true then some ⟨y, m, 1⟩ else none

/-- `datetime.strptime(s, "%Y").date().replace(month=1, day=1)`. -/
def strptimeY (s : String) : Option SDate :=
  match parseYearTok s.data with
  | none => none
  | some (y, r1) =>
    if r1 = [] ∧ dateValid y 1 1 = true then some ⟨y, 1, 1⟩ else none

/-- `GedcomParser._validate_date`: try the three formats in order,
catching each `ValueError`; a falsy input or total failure gives `None`.
The original text is not retained anywhere in the result. -/
def validateDate (date_str : Option String) : Option SDate :=
  match date_str with
  | none => none
  | some s =>
    if s = "" then none
    else
      match strptimeDMY s with
      | some d => some d
      | none =>
        match strptimeBY s with
        | some d => some d
        | none =>
          match strptimeY s with
          | some d => some d
          | none => none

/-- `GedcomParser._validate_place`: falsy input gives `None`, otherwise
the string is stripped of leading and trailing whitespace. -/
def validatePlace (place : Option String) : Option String :=
  match place with
  | none => none
  | some p => if p = "" then none else some p.trim

/-- `GedcomParser._validate_event` applied to the (date, place) dict that
`_get_event_details` builds; that dict never carries a type key, so the
type field always falls back to Unknown. -/
def validateEvent (details : Option (Option String × Option String)) : Option Event :=
  match details with
  | none => none
  | some (d, p) => some { type := "Unknown", date := validateDate d, place := validatePlace p }

/-- `GedcomParser._validate_list` on lists of strings: falsy (empty)
input gives an empty list, otherwise the truthy (non-empty) items. -/
def validateList (items : List String) : List String :=
  match items with
  | [] => []
  | items => items.filter (fun i => i ≠ "")

/-- Raw material of one individual record, as the `_get_*` helpers
extract it from the gedcom element tree. -/
structure RawIndividual where
  pointer : String
  name : NameInput
  sex : Option String
  birt : Option (Option String × Option String) := none
  deat : Option (Option String × Option String) := none
  occu : List String := []
  educ : List String := []
  resi : List (Option String × Option String) := []
deriving Repr

/-- `GedcomParser._parse_individual`: builds the `Individual` that is
inserted into the graph.  The family back-reference lists are left at
their dataclass defaults (the source never populates them during
parsing). -/
def parseIndividual (r : RawIndividual) : Individual :=
  { id := r.pointer
    name := validateName r.name
    sex := validateSex r.sex
    birth := validateEvent r.birt
    death := validateEvent r.deat
    occupations := validateList r.occu
    education := validateList r.educ
    residences := r.resi }

/-- Days in the years before year `y` in the proleptic Gregorian
calendar (`date.toordinal` support). -/
def daysBeforeYear (y : Nat) : Nat :=
  365 * (y - 1) + (y - 1) / 4 - (y - 1) / 100 + (y - 1) / 400

/-- Days in year `y` before month `m`. -/
def daysBeforeMonth (y m : Nat) : Nat :=
  (List.range (m - 1)).foldl (fun acc i => acc + daysInMonth y (i + 1)) 0

/-- `date.toordinal()`: day number with 0001-01-01 as day one. -/
def toOrdinal (d : SDate) : Nat :=
  daysBeforeYear d.year + daysBeforeMonth d.year d.month + d.day

/-- `(a - b).days` for two Python dates. -/
def dateDiffDays (a b : SDate) : Int :=
  (toOrdinal a : Int) - (toOrdinal b : Int)

/-- The three per-individual checks of `GedcomParser._validate_dates`,
in source order, producing the exact issue strings the source formats. -/
def individualDateIssues (today : SDate) (ind_id : String) (individual : Individual) : List String :=
  let name := individual.name
  let birth_date := individual.birth.bind Event.date
  let death_date := individual.death.bind Event.date
  let l1 :=
    match birth_date, death_date with
    | some b, some d =>
      if SDate.lt d b then
        ["Individual " ++ ind_id ++ " (" ++ name ++ "): Birth date (" ++ dateStr b ++
         ") is after death date (" ++ dateStr d ++ ")"]
      else []
    | _, _ => []
  let l2 :=
    match death_date with
    | some d =>
      if SDate.lt today d then
        ["Individual " ++ ind_id ++ " (" ++ name ++ "): Death date (" ++ dateStr d ++
         ") is in the future"]
      else []
    | none => []
  let l3 :=
    match birth_date with
    | some b =>
      if SDate.lt today b then
        ["Individual " ++ ind_id ++ " (" ++ name ++ "): Birth date (" ++ dateStr b ++
         ") is in the future"]
      else []
    | none => []
  l1 ++ l2 ++ l3

/-- `GedcomParser._validate_dates`: iterate the individuals dict in
insertion order. -/
def validateDates (today : SDate) (g : GedcomData) : List String :=
  g.individuals.flatMap (fun p => individualDateIssues today p.1 p.2)

/-- `GedcomParser._get_individual_info`: description of an individual for
issue messages; a falsy or unresolved id gives the Unknown placeholder.
A birth event without a date prints the Python None. -/
def getIndividualInfo (g : GedcomData) (ind_id : Option String) : String :=
  match truthyStr ind_id with
  | none => "Unknown"
  | some i =>
    match dictGet g.individuals i with
    | none => "Unknown"
    | some ind =>
      let birth :=
        match ind.birth with
        | none => "Unknown"
        | some e =>
          match e.date with
          | some d => dateStr d
          | none => "None"
      i ++ ": " ++ ind.name ++ ", born " ++ birth

/-- The family description prefix both family-level validators build. -/
def familyDescription (g : GedcomData) (fam_id : String) (family : Family) : String :=
  "Family " ++ fam_id ++ " - Father: " ++ getIndividualInfo g family.husband_id ++
  ", Mother: " ++ getIndividualInfo g family.wife_id

/-- The child loop of `_validate_family_relationships`: each child id is
indexed directly into the individuals dict (`KeyError` when absent). -/
def famRelChildLoop (g : GedcomData) (family_description : String)
    (father_birth : Option SDate) : List String → List String → Except String (List String)
  | [], acc => Except.ok acc
  | child_id :: rest, acc =>
    match dictGet g.individuals child_id with
    | none => Except.error ("KeyError: " ++ child_id)
    | some child =>
      match father_birth, child.birth.bind Event.date with
      | some fb, some cb =>
        if SDate.lt cb fb then
          famRelChildLoop g family_description father_birth rest
            (acc ++ [family_description ++ "\n  Issue: Father born after child (" ++
                     child_id ++ ": " ++ child.name ++ ", born " ++ dateStr cb ++ ")"])
        else famRelChildLoop g family_description father_birth rest acc
      | _, _ => famRelChildLoop g family_description father_birth rest acc

/-- One family of `GedcomParser._validate_family_relationships`.  Only the
husband is examined; a truthy husband id is indexed directly into the
individuals dict (`KeyError` when absent), and then each child likewise. -/
def validateFamilyRelationshipsFam (g : GedcomData) (fam_id : String)
    (family : Family) : Except String (List String) :=
  let family_description := familyDescription g fam_id family
  match truthyStr family.husband_id with
  | none => Except.ok []
  | some father_id =>
    match dictGet g.individuals father_id with
    | none => Except.error ("KeyError: " ++ father_id)
    | some father =>
      famRelChildLoop g family_description (father.birth.bind Event.date)
        family.children_ids []

/-- `GedcomParser._validate_family_relationships` over the whole graph. -/
def validateFamilyRelationships (g : GedcomData) : Except String (List String) :=
  g.families.foldlM
    (fun acc p =>
      match validateFamilyRelationshipsFam g p.1 p.2 with
      | Except.error e => Except.error e
      | Except.ok l => Except.ok (acc ++ l)) []

/-- One family of `GedcomParser._validate_marriage_dates`.  This rule uses
`dict.get` throughout, so unresolved spouse/child ids are skipped rather
than raised. -/
def validateMarriageDatesFam (g : GedcomData) (fam_id : String) (family : Family) : List String :=
  let family_description := familyDescription g fam_id family
  match family.marriage.bind Event.date with
  | none => []
  | some marriage_date =>
    let l1 :=
      match truthyStr family.husband_id with
      | none => []
      | some hid =>
        match dictGet g.individuals hid with
        | none => []
        | some husband =>
          match husband.birth.bind Event.date with
          | some hb =>
            if SDate.lt marriage_date hb then
              [family_description ++ "\n  Issue: Marriage date (" ++ dateStr marriage_date ++
               ") before husband\x27s birth"]
            else []
          | none => []
    let l2 :=
      match truthyStr family.wife_id with
      | none => []
      | some wid =>
        match dictGet g.individuals wid with
        | none => []
        | some wife =>
          match wife.birth.bind Event.date with
          | some wb =>
            if SDate.lt marriage_date wb then
              [family_description ++ "\n  Issue: Marriage date (" ++ dateStr marriage_date ++
               ") before wife\x27s birth"]
            else []
          | none => []
    let l3 :=
      family.children_ids.flatMap (fun child_id =>
        match dictGet g.individuals child_id with
        | none => []
        | some child =>
          match child.birth.bind Event.date with
          | some cb =>
            if SDate.lt cb marriage_date then
              [family_description ++ "\n  Issue: Marriage date (" ++ dateStr marriage_date ++
               ") after child\x27s birth (" ++ child_id ++ ": " ++ child.name ++
               ", born " ++ dateStr cb ++ ")"]
            else []
          | none => [])
    l1 ++ l2 ++ l3

/-- `GedcomParser._validate_marriage_dates` over the whole graph. -/
def validateMarriageDates (g : GedcomData) : List String :=
  g.families.flatMap (fun p => validateMarriageDatesFam g p.1 p.2)

/-- The list of issues one call of `GedcomParser.validate_data` appends:
date checks, then family-relationship checks, then marriage checks.  An
unresolved lookup in the family-relationship pass raises. -/
def validateDataIssues (today : SDate) (g : GedcomData) : Except String (List String) :=
  match validateFamilyRelationships g with
  | Except.error e => Except.error e
  | Except.ok l2 => Except.ok (validateDates today g ++ l2 ++ validateMarriageDates g)

/-- One call of `validate_data` as a transition on the accumulated
`validation_issues` state: the freshly computed issues are appended to
whatever is already there (the list is never cleared). -/
def validateDataState (today : SDate) (g : GedcomData)
    (issues : List String) : Except String (List String) :=
  match validateDataIssues today g with
  | Except.error e => Except.error e
  | Except.ok l => Except.ok (issues ++ l)

/-- `n` successive calls of `validate_data` on the same parser object,
starting from the empty issue list. -/
def validateDataRuns (today : SDate) (g : GedcomData) : Nat → Except String (List String)
  | 0 => Except.ok []
  | n + 1 =>
    match validateDataRuns today g n with
    | Except.error e => Except.error e
    | Except.ok issues => validateDataState today g issues

/-- The characters before the first occurrence of the spaced dash
separator (the first segment of the Python split on that constant
separator, specialised to it). -/
def takeUntilSepDash : List Char → List Char
  | ' ' :: '-' :: ' ' :: _ => []
  | c :: rest => c :: takeUntilSepDash rest
  | [] => []

/-- The characters after the first space, if any. -/
def dropUntilSpace : List Char → Option (List Char)
  | ' ' :: rest => some rest
  | _ :: rest => dropUntilSpace rest
  | [] => none

/-- The characters before the next space. -/
def takeUntilSpace : List Char → List Char
  | ' ' :: _ => []
  | c :: rest => c :: takeUntilSpace rest
  | [] => []

/-- The id extraction inside `get_summary_statistics`: split the issue on
the spaced dash, keep the first segment, split that on single spaces and
keep the second token.  Every issue string the validators build has at
least two such tokens, so the Python index never faults (the impossible
no-space case is mapped to the empty string). -/
def extractIssueId (issue : String) : String :=
  match dropUntilSpace (takeUntilSepDash issue.data) with
  | none => ""
  | some rest => String.mk (takeUntilSpace rest)

/-- The `percent_families_with_issues` field of
`GedcomParser.get_summary_statistics`: distinct extracted ids over total
families, times 100, with 0 when the families dict is falsy.  Python
float division is modelled with `Rat`. -/
def percentFamiliesWithIssues (issues : List String) (g : GedcomData) : Rat :=
  if g.families = [] then 0
  else (((issues.map extractIssueId).dedup.length : Rat) / (g.families.length : Rat)) * 100

/-- Python `min(l)` over dates: first minimal element, `None` marking the
`ValueError` an empty sequence raises. -/
def listMinDate : List SDate → Option SDate
  | [] => none
  | d :: rest => some (rest.foldl (fun acc x => if SDate.lt x acc then x else acc) d)

/-- Python `max(l)` over dates. -/
def listMaxDate : List SDate → Option SDate
  | [] => none
  | d :: rest => some (rest.foldl (fun acc x => if SDate.lt acc x then x else acc) d)

/-- The resolved birth dates of a graph, in insertion order, as the list
comprehension in `analyze_birth_date_range` collects them. -/
def resolvedBirthDates (g : GedcomData) : List SDate :=
  g.individuals.filterMap (fun p => p.2.birth.bind Event.date)

/-- The resolved death dates of a graph, in insertion order. -/
def resolvedDeathDates (g : GedcomData) : List SDate :=
  g.individuals.filterMap (fun p => p.2.death.bind Event.date)

/-- `AnalysisEngine.analyze_birth_date_range`: min and max of the resolved
birth dates; with no such date, the Python `min` of an empty sequence
raises `ValueError`. -/
def analyzeBirthDateRange (g : GedcomData) : Except String (SDate × SDate) :=
  match listMinDate (resolvedBirthDates g), listMaxDate (resolvedBirthDates g) with
  | some lo, some hi => Except.ok (lo, hi)
  | _, _ => Except.error "ValueError: min() arg is an empty sequence"

/-- `AnalysisEngine.analyze_death_date_range`. -/
def analyzeDeathDateRange (g : GedcomData) : Except String (SDate × SDate) :=
  match listMinDate (resolvedDeathDates g), listMaxDate (resolvedDeathDates g) with
  | some lo, some hi => Except.ok (lo, hi)
  | _, _ => Except.error "ValueError: min() arg is an empty sequence"

/-- Age in years as the source computes it: day difference divided by
365.25 (float arithmetic modelled exactly with `Rat`). -/
def ageYears (later earlier : SDate) : Rat :=
  (dateDiffDays later earlier : Rat) / ((1461 : Rat) / 4)

/-- `AnalysisEngine.analyze_marriage_age`: collects husband and wife ages
per family with a resolved marriage date.  A truthy spouse id is indexed
directly into the individuals dict, raising `KeyError` when absent. -/
def analyzeMarriageAge (g : GedcomData) : Except String (Rat × Rat) :=
  match g.families.foldlM
    (fun (acc : List Rat × List Rat) p =>
      let family := p.2
      match family.marriage.bind Event.date with
      | none => Except.ok acc
      | some marriage_date =>
        let step1 : Except String (List Rat × List Rat) :=
          match truthyStr family.husband_id with
          | none => Except.ok acc
          | some hid =>
            match dictGet g.individuals hid with
            | none => Except.error ("KeyError: " ++ hid)
            | some husband =>
              match husband.birth.bind Event.date with
              | some hb => Except.ok (acc.1 ++ [ageYears marriage_date hb], acc.2)
              | none => Except.ok acc
        match step1 with
        | Except.error e => Except.error e
        | Except.ok acc1 =>
          match truthyStr family.wife_id with
          | none => Except.ok acc1
          | some wid =>
            match dictGet g.individuals wid with
            | none => Except.error ("KeyError: " ++ wid)
            | some wife =>
              match wife.birth.bind Event.date with
              | some wb => Except.ok (acc1.1, acc1.2 ++ [ageYears marriage_date wb])
              | none => Except.ok acc1) ([], []) with
  | Except.error e => Except.error e
  | Except.ok (male_ages, female_ages) =>
    Except.ok
      ((if male_ages = [] then 0 else male_ages.foldl (· + ·) 0 / (male_ages.length : Rat)),
       (if female_ages = [] then 0 else female_ages.foldl (· + ·) 0 / (female_ages.length : Rat)))

/-- One level of the inner `get_generation` of
`AnalysisEngine.analyze_generation_span`, with the recursive call
abstracted as `rec`.  The comprehension indexes each family id of
`families_as_spouse` directly into the families dict (`KeyError` when
absent) and recurses into the children of that family in order before moving
to the next family, short-circuiting on the first raised exception. -/
def genStep (g : GedcomData) (rec : String → Nat → Except String Nat)
    (individual_id : String) (generation : Nat) : Except String Nat :=
  match dictGet g.individuals individual_id with
  | none => Except.error ("KeyError: " ++ individual_id)
  | some individual =>
    match individual.families_as_spouse.foldlM
      (fun (acc : List Nat) family_id =>
        match dictGet g.families family_id with
        | none => Except.error ("KeyError: " ++ family_id)
        | some fam =>
          fam.children_ids.foldlM
            (fun acc2 child_id =>
              match rec child_id (generation + 1) with
              | Except.error e => Except.error e
              | Except.ok n => Except.ok (acc2 ++ [n])) acc) [] with
    | Except.error e => Except.error e
    | Except.ok child_generations =>
      match child_generations.max? with
      | some m => Except.ok m
      | none => Except.ok generation

/-- The inner `get_generation`, with an explicit fuel argument playing the
role of the remaining CPython recursion depth: on a cyclic graph the only
way the Python recursion ends is the interpreter recursion limit, i.e.
a raised `RecursionError`, which exhausting the fuel models. -/
def getGeneration (g : GedcomData) : Nat → String → Nat → Except String Nat
  | 0 => fun _ _ => Except.error "RecursionError"
  | fuel + 1 => genStep g (getGeneration g fuel)

/-- `AnalysisEngine.analyze_generation_span`: individuals without
`families_as_child` entries are roots; the result is one plus the maximum
generation reached from any root.  With no roots, the Python `max` of an
empty sequence raises `ValueError`. -/
def analyzeGenerationSpan (g : GedcomData) (fuel : Nat) : Except String Nat :=
  let root_individuals :=
    (g.individuals.filter (fun p => p.2.families_as_child.isEmpty)).map (fun p => p.2.id)
  match root_individuals.mapM (fun rid => getGeneration g fuel rid 0) with
  | Except.error e => Except.error e
  | Except.ok gens =>
    match gens.max? with
    | none => Except.error "ValueError: max() arg is an empty sequence"
    | some m => Except.ok (m + 1)

/-- A fixed validation-run date used by the concrete scenarios. -/
def today0 : SDate := ⟨2026, 10, 12⟩

/-- Graph with a family whose husband, wife and child ids resolve to no
individual, and a resolved marriage date (claim C1 failing input). -/
def gMissingAll : GedcomData :=
  { individuals := []
    families :=
      [("@F1@",
        { id := "@F1@", husband_id := some "@H@", wife_id := some "@W@"
          children_ids := ["@C@"]
          marriage := some { type := "Unknown", date := some ⟨1970, 1, 1⟩ } })] }

/-- Graph whose family has a resolved husband but a dangling child id. -/
def gMissingChild : GedcomData :=
  { individuals :=
      [("@H@", { id := "@H@", name := "Hank", sex := "M" })]
    families :=
      [("@F1@",
        { id := "@F1@", husband_id := some "@H@", children_ids := ["@C@"]
          marriage := some { type := "Unknown", date := some ⟨1970, 1, 1⟩ } })] }

/-- Graph whose family has no husband and a dangling wife id with a
resolved marriage date. -/
def gMissingWife : GedcomData :=
  { individuals := []
    families :=
      [("@F1@",
        { id := "@F1@", wife_id := some "@W@"
          marriage := some { type := "Unknown", date := some ⟨1970, 1, 1⟩ } })] }

/-- Graph with one individual whose birth date is after the death date
(claims C2 and C6 use it). -/
def gInverted : GedcomData :=
  { individuals :=
      [("@I1@",
        { id := "@I1@", name := "John", sex := "M"
          birth := some { type := "Unknown", date := some ⟨1990, 1, 1⟩ }
          death := some { type := "Unknown", date := some ⟨1980, 1, 1⟩ } })]
    families := [] }

/-- The one issue `validate_data` reports on `gInverted`. -/
def invertedIssue : String :=
  "Individual @I1@ (John): Birth date (1990-01-01) is after death date (1980-01-01)"


/-- Graph with a motherless family: the wife (born 2000) is recorded with
a child born 1990, and there is no husband (claim C3 counterexample
input). -/
def gWifeAfterChild : GedcomData :=
  { individuals :=
      [("@W@",
        { id := "@W@", name := "Mary", sex := "F"
          birth := some { type := "Unknown", date := some ⟨2000, 1, 1⟩ } }),
       ("@C@",
        { id := "@C@", name := "Kid", sex := "U"
          birth := some { type := "Unknown", date := some ⟨1990, 1, 1⟩ } })]
    families :=
      [("@F1@",
        { id := "@F1@", wife_id := some "@W@", children_ids := ["@C@"] })] }

/-- Graph whose family has a husband born 2000 and a child born 1990
(father strictly after child; used to witness the amended C3). -/
def gFatherAfterChild : GedcomData :=
  { individuals :=
      [("@H@",
        { id := "@H@", name := "Hank", sex := "M"
          birth := some { type := "Unknown", date := some ⟨2000, 1, 1⟩ } }),
       ("@C@",
        { id := "@C@", name := "Kid", sex := "U"
          birth := some { type := "Unknown", date := some ⟨1990, 1, 1⟩ } })]
    families :=
      [("@F1@",
        { id := "@F1@", husband_id := some "@H@", children_ids := ["@C@"] })] }

/-- Graph with one individual and no resolved dates at all (claim C6
failing input). -/
def gNoDates : GedcomData :=
  { individuals := [("@I1@", { id := "@I1@", name := "John", sex := "U" })]
    families := [] }

/-- Graph with two date-ordering issues on individuals and one issue-free
family (claim C7 counterexample input): the issue strings mention only
individuals, yet their ids land in the numerator. -/
def gIndIssuesOnly : GedcomData :=
  { individuals :=
      [("@I1@",
        { id := "@I1@", name := "John", sex := "M"
          birth := some { type := "Unknown", date := some ⟨1990, 1, 1⟩ }
          death := some { type := "Unknown", date := some ⟨1980, 1, 1⟩ } }),
       ("@I2@",
        { id := "@I2@", name := "Jane", sex := "F"
          birth := some { type := "Unknown", date := some ⟨1991, 1, 1⟩ }
          death := some { type := "Unknown", date := some ⟨1981, 1, 1⟩ } })]
    families := [("@F1@", { id := "@F1@" })] }

/-- The two issues `validate_data` reports on `gIndIssuesOnly`. -/
def indIssue1 : String :=
  "Individual @I1@ (John): Birth date (1990-01-01) is after death date (1980-01-01)"

/-- Second issue on `gIndIssuesOnly`. -/
def indIssue2 : String :=
  "Individual @I2@ (Jane): Birth date (1991-01-01) is after death date (1981-01-01)"

/-- The spec scenario graph: I1 (born 1950-03-04) is a spouse in family
F1 whose child is I2 (born 1975-06-01), who is recorded as a child of F1
(claim C9). -/
def gScenario : GedcomData :=
  { individuals :=
      [("@I1@",
        { id := "@I1@", name := "I1", sex := "M"
          birth := some { type := "Unknown", date := some ⟨1950, 3, 4⟩ }
          families_as_spouse := ["@F1@"] }),
       ("@I2@",
        { id := "@I2@", name := "I2", sex := "U"
          birth := some { type := "Unknown", date := some ⟨1975, 6, 1⟩ }
          families_as_child := ["@F1@"] })]
    families :=
      [("@F1@",
        { id := "@F1@", husband_id := some "@I1@", children_ids := ["@I2@"] })] }

/-- A cyclic graph: root B is a spouse in F1 with child A, and A is a
spouse in F2 whose recorded child is again A, so A is its own descendant
(claim C5 failing input). -/
def gCycle : GedcomData :=
  { individuals :=
      [("@B@", { id := "@B@", name := "B", sex := "U", families_as_spouse := ["@F1@"] }),
       ("@A@",
        { id := "@A@", name := "A", sex := "U"
          families_as_spouse := ["@F2@"], families_as_child := ["@F2@"] })]
    families :=
      [("@F1@", { id := "@F1@", children_ids := ["@A@"] }),
       ("@F2@", { id := "@F2@", children_ids := ["@A@"] })] }

/-- Helper: the sex normalizer can only produce M, F or U. -/
theorem validateSex_mem (x : Option String) :
    validateSex x = "M" ∨ validateSex x = "F" ∨ validateSex x = "U" := by
  rcases x with _ | s
  · simp [validateSex]
  · by_cases hM : s = "M"
    · subst hM; simp [validateSex]
    · by_cases hF : s = "F"
      · subst hF; simp [validateSex]
      · simp [validateSex, hM, hF]

/-- C10: the sex normalizer returns M exactly on input M, F exactly on
input F, and U on every other input (including absent), so the sex field
of every individual built by the parser is one of M, F, U. -/
theorem c10_validateSex_closed :
    (∀ x : Option String,
      (validateSex x = "M" ↔ x = some "M") ∧
      (validateSex x = "F" ↔ x = some "F") ∧
      (validateSex x = "M" ∨ validateSex x = "F" ∨ validateSex x = "U")) ∧
    (∀ r : RawIndividual,
      (parseIndividual r).sex = "M" ∨ (parseIndividual r).sex = "F" ∨
        (parseIndividual r).sex = "U") := by
  constructor
  · intro x
    refine ⟨?_, ?_, validateSex_mem x⟩ <;>
    · rcases x with _ | s
      · simp [validateSex]
      · by_cases hM : s = "M"
        · subst hM; simp [validateSex]
        · by_cases hF : s = "F"
          · subst hF; simp [validateSex]
          · simp [validateSex, hM, hF]
  · intro r
    exact validateSex_mem r.sex

/-- C1: contrary to the claim, an unresolved husband, wife or child id
does not make validation or the marriage-age query skip the check — the
direct dict indexing raises KeyError: with a dangling husband id both
`_validate_family_relationships` and `analyze_marriage_age` raise; with a
dangling child id the family-relationship pass raises; with a dangling
wife id (husband absent) the marriage-age query raises. -/
theorem c1_dangling_reference_raises :
    validateFamilyRelationships gMissingAll = Except.error "KeyError: @H@" ∧
    analyzeMarriageAge gMissingAll = Except.error "KeyError: @H@" ∧
    validateFamilyRelationships gMissingChild = Except.error "KeyError: @C@" ∧
    analyzeMarriageAge gMissingWife = Except.error "KeyError: @W@" :=
  ⟨rfl, rfl, rfl, rfl⟩

/-- C6: the date-range queries raise ValueError (empty-sequence min)
instead of signalling "no data" on a graph with no resolved birth or
death dates; on a graph that has a resolved date they do return the
min/max pair. -/
theorem c6_date_range_empty_crashes :
    analyzeBirthDateRange gNoDates = Except.error "ValueError: min() arg is an empty sequence" ∧
    analyzeDeathDateRange gNoDates = Except.error "ValueError: min() arg is an empty sequence" ∧
    analyzeBirthDateRange gInverted = Except.ok (⟨1990, 1, 1⟩, ⟨1990, 1, 1⟩) ∧
    analyzeDeathDateRange gInverted = Except.ok (⟨1980, 1, 1⟩, ⟨1980, 1, 1⟩) :=
  ⟨rfl, rfl, rfl, rfl⟩

/-- Helper: on the cyclic graph, the recursion through A never returns,
whatever recursion budget remains. -/
theorem getGeneration_gCycle_A (fuel : Nat) :
    ∀ gen, getGeneration gCycle fuel "@A@" gen = Except.error "RecursionError" := by
  induction fuel with
  | zero => intro gen; rfl
  | succ n ih =>
    intro gen
    have ih2 := ih (gen + 1)
    simp only [gCycle] at ih2
    show genStep gCycle (getGeneration gCycle n) "@A@" gen = _
    simp [genStep, gCycle, dictGet, ih2]

/-- C5: on the cyclic graph the generation-span computation neither
returns a bounded depth nor signals a cycle: for every recursion budget
it runs out of stack, i.e. the Python recursion is unbounded and ends in
RecursionError. -/
theorem c5_generation_span_cycle_unbounded (fuel : Nat) :
    analyzeGenerationSpan gCycle fuel = Except.error "RecursionError" := by
  cases fuel with
  | zero => rfl
  | succ n =>
    have ha := getGeneration_gCycle_A n 1
    simp only [gCycle] at ha
    have hroot : getGeneration gCycle (n + 1) "@B@" 0 = Except.error "RecursionError" := by
      show genStep gCycle (getGeneration gCycle n) "@B@" 0 = _
      simp [genStep, gCycle, dictGet, ha]
    simp only [gCycle] at hroot
    simp [analyzeGenerationSpan, gCycle, List.mapM, List.mapM.loop, hroot]

/-- C9: on the spec scenario graph (I1 born 1950-03-04 a spouse in F1,
I2 born 1975-06-01 a child of F1), validation run on any day not before
the recorded birth dates reports no issues, and the generation span at
the Python recursion limit is 2. -/
theorem c9_scenario_valid_and_span_two (today : SDate)
    (h1 : SDate.lt today ⟨1950, 3, 4⟩ = false)
    (h2 : SDate.lt today ⟨1975, 6, 1⟩ = false) :
    validateDataIssues today gScenario = Except.ok [] ∧
    analyzeGenerationSpan gScenario 1000 = Except.ok 2 := by
  constructor
  · have hdates : validateDates today gScenario = [] := by
      simp [validateDates, gScenario, individualDateIssues, h1, h2]
    have hfam : validateFamilyRelationships gScenario = Except.ok [] := rfl
    have hmarr : validateMarriageDates gScenario = [] := rfl
    simp [validateDataIssues, hdates, hfam, hmarr]
  · rfl

/-- C9 witness: the hypotheses hold on the fixed run date 2026-10-12. -/
theorem c9_scenario_valid_and_span_two_witness :
    SDate.lt today0 ⟨1950, 3, 4⟩ = false ∧ SDate.lt today0 ⟨1975, 6, 1⟩ = false ∧
    (validateDataIssues today0 gScenario = Except.ok [] ∧
      analyzeGenerationSpan gScenario 1000 = Except.ok 2) :=
  ⟨by decide, by decide, c9_scenario_valid_and_span_two today0 (by decide) (by decide)⟩

/-- C2 counterexample: on the inverted-dates graph the issue list
observable after the second `validate_data` call is the first-run list
duplicated, not the first-run list. -/
theorem c2_second_run_differs :
    validateDataRuns today0 gInverted 1 = Except.ok [invertedIssue] ∧
    validateDataRuns today0 gInverted 2 = Except.ok [invertedIssue, invertedIssue] ∧
    [invertedIssue, invertedIssue] ≠ [invertedIssue] :=
  ⟨rfl, rfl, by decide⟩

/-- Helper: appending one more copy of `l` on the right of the flattened
replicate equals prepending it on the left. -/
theorem join_replicate_snoc (l : List String) (k : Nat) :
    (List.replicate (k + 1) l).flatten = (List.replicate k l).flatten ++ l := by
  induction k with
  | zero => simp
  | succ m ih =>
    calc (List.replicate (m + 2) l).flatten
        = l ++ (List.replicate (m + 1) l).flatten := by
          simp [List.replicate_succ]
      _ = l ++ ((List.replicate m l).flatten ++ l) := by rw [ih]
      _ = (l ++ (List.replicate m l).flatten) ++ l := by rw [List.append_assoc]
      _ = (List.replicate (m + 1) l).flatten ++ l := by simp [List.replicate_succ]

/-- C2 amended: each `validate_data` call deterministically recomputes
the same issue list but appends it to the accumulated state, so after
n + 1 runs the observable list is n + 1 concatenated copies of the
single-run list; the list after the second run therefore equals the
first-run list followed by itself, which coincides with the first-run
list only
when it is empty. -/
theorem c2_runs_accumulate_copies (today : SDate) (g : GedcomData) (l : List String)
    (h : validateDataIssues today g = Except.ok l) :
    ∀ n : Nat, validateDataRuns today g (n + 1) = Except.ok (List.replicate (n + 1) l).flatten := by
  intro n
  induction n with
  | zero => simp [validateDataRuns, validateDataState, h]
  | succ m ih =>
    show (match validateDataRuns today g (m + 1) with
          | Except.error e => Except.error e
          | Except.ok issues => validateDataState today g issues) = _
    rw [ih]
    simp [validateDataState, h, join_replicate_snoc]

/-- C2 amended witness: instantiated on the inverted-dates graph at the
fixed run date. -/
theorem c2_runs_accumulate_copies_witness :
    validateDataRuns today0 gInverted 2 =
      Except.ok (List.replicate 2 [invertedIssue]).flatten := by
  exact c2_runs_accumulate_copies today0 gInverted [invertedIssue] rfl 1

/-- C4 counterexample: two distinct unparsable texts produce the same
result None, so the result carries no trace of the original text — the
claim that the original text is returned unchanged inside the result is
false. -/
theorem c4_unparsed_text_discarded :
    validateDate (some "garbage") = none ∧
    validateDate (some "other words") = none ∧
    validateDate (some "garbage") = validateDate (some "other words") ∧
    "garbage" ≠ "other words" :=
  ⟨rfl, rfl, rfl, by decide⟩

/-- C4 amended: on any non-empty text that matches none of the three date
patterns, `_validate_date` returns None — it never raises (the embedded
function is total), but the original text is discarded rather than
retained in the result. -/
theorem c4_unparsable_gives_none (s : String) (hne : s ≠ "")
    (h1 : strptimeDMY s = none) (h2 : strptimeBY s = none) (h3 : strptimeY s = none) :
    validateDate (some s) = none := by
  simp [validateDate, hne, h1, h2, h3]

/-- C4 amended witness: instantiated on the unparsable text used by the
counterexample. -/
theorem c4_unparsable_gives_none_witness :
    "garbage" ≠ "" ∧ strptimeDMY "garbage" = none ∧ strptimeBY "garbage" = none ∧
    strptimeY "garbage" = none ∧ validateDate (some "garbage") = none :=
  ⟨by decide, rfl, rfl, rfl, c4_unparsable_gives_none "garbage" (by decide) rfl rfl rfl⟩

/-- Helper: the whitespace split yields no tokens exactly when every
remaining character is whitespace and the current token buffer is empty. -/
theorem pySplitWsAux_eq_nil (cs : List Char) :
    ∀ acc, pySplitWsAux cs acc = [] ↔ (cs.all Char.isWhitespace = true ∧ acc = []) := by
  induction cs with
  | nil =>
    intro acc
    by_cases h : acc = [] <;> simp [pySplitWsAux, h]
  | cons c rest ih =>
    intro acc
    by_cases hw : c.isWhitespace
    · by_cases h : acc = []
      · subst h; simp [pySplitWsAux, hw, ih]
      · simp [pySplitWsAux, hw, h]
    · simp [pySplitWsAux, hw, ih]

/-- Helper: every token the whitespace split yields is non-empty. -/
theorem pySplitWsAux_mem_ne (cs : List Char) :
    ∀ acc t, t ∈ pySplitWsAux cs acc → t ≠ "" := by
  induction cs with
  | nil =>
    intro acc t ht
    by_cases h : acc = []
    · simp [pySplitWsAux, h] at ht
    · simp [pySplitWsAux, h] at ht
      subst ht
      intro hcon
      have := congrArg String.data hcon
      simp [h] at this
  | cons c rest ih =>
    intro acc t ht
    by_cases hw : c.isWhitespace
    · by_cases h : acc = []
      · subst h
        simp only [pySplitWsAux, hw, if_true, if_pos rfl] at ht
        exact ih [] t ht
      · simp only [pySplitWsAux, hw, if_true, if_neg h, List.mem_cons] at ht
        rcases ht with ht | ht
        · subst ht
          intro hcon
          have := congrArg String.data hcon
          simp [h] at this
        · exact ih [] t ht
    · simp only [pySplitWsAux, hw, if_false, Bool.false_eq_true] at ht
      exact ih (c :: acc) t ht

/-- Helper: a space-join of non-empty strings is empty exactly for the
empty list. -/
theorem pyJoinSpace_eq_empty (l : List String) (hne : ∀ t ∈ l, t ≠ "") :
    pyJoinSpace l = "" ↔ l = [] := by
  match l with
  | [] => simp [pyJoinSpace]
  | [x] =>
    have hx := hne x (by simp)
    simp [pyJoinSpace, hx]
  | x :: y :: rest =>
    simp only [pyJoinSpace]
    constructor
    · intro h
      have := congrArg String.data h
      simp [String.data_append] at this
    · intro h
      exact absurd h (by simp)

/-- C8 counterexample: a single-space name normalizes to the empty
string, not to a non-empty string or the Unknown sentinel. -/
theorem c8_whitespace_name_empty : validateName (NameInput.str " ") = "" := rfl

/-- C8 amended: absent, empty-string and empty-tuple names normalize to
the Unknown sentinel, but the result is not always non-empty: a string
name normalizes to the empty string exactly when it is non-empty and all
whitespace, and a tuple name exactly when it is non-empty with all parts
empty. -/
theorem c8_normalizeName_empty_characterization :
    validateName NameInput.nothing = "Unknown" ∧
    validateName (NameInput.str "") = "Unknown" ∧
    validateName (NameInput.tup []) = "Unknown" ∧
    (∀ s : String, validateName (NameInput.str s) = "" ↔
      (s ≠ "" ∧ s.data.all Char.isWhitespace = true)) ∧
    (∀ ps : List String, validateName (NameInput.tup ps) = "" ↔
      (ps ≠ [] ∧ ps.all (fun p => p = "") = true)) := by
  refine ⟨rfl, rfl, rfl, ?_, ?_⟩
  · intro s
    by_cases hs : s = ""
    · subst hs; simp [validateName]
    · have hjoin := pyJoinSpace_eq_empty (pySplitWs s) (pySplitWsAux_mem_ne s.data [])
      simp only [pySplitWs] at hjoin
      simp only [validateName, if_neg hs, pySplitWs, hjoin, pySplitWsAux_eq_nil]
      simp [hs]
  · intro ps
    by_cases hp : ps = []
    · subst hp; simp [validateName]
    · have hne : ∀ t ∈ ps.filter (fun p => p ≠ ""), t ≠ "" := by
        intro t ht
        have := List.of_mem_filter ht
        simpa using this
      have hjoin := pyJoinSpace_eq_empty _ hne
      simp only [validateName, if_neg hp, hjoin, List.filter_eq_nil_iff]
      simp [hp, List.all_eq_true]

/-- C3 counterexample: in a family whose wife (born 2000) has a child
born 1990 and no recorded husband, a full validation run reports no
issue at all, although the wife birth date is strictly after that of
the child — the wife is never compared against her children. -/
theorem c3_wife_after_child_not_flagged :
    validateDataIssues today0 gWifeAfterChild = Except.ok [] ∧
    SDate.lt ⟨1990, 1, 1⟩ ⟨2000, 1, 1⟩ = true :=
  ⟨rfl, by decide⟩

/-- The issue `_validate_family_relationships` contributes for one child:
present exactly when the child resolves, both birth dates are resolved,
and the father birth date is strictly after that of the child. -/
def fatherChildIssue (g : GedcomData) (desc : String) (fb : SDate) (cid : String) : Option String :=
  match dictGet g.individuals cid with
  | none => none
  | some child =>
    match child.birth.bind Event.date with
    | some cb =>
      if SDate.lt cb fb then
        some (desc ++ "\n  Issue: Father born after child (" ++ cid ++ ": " ++
              child.name ++ ", born " ++ dateStr cb ++ ")")
      else none
    | none => none

/-- Helper: when every child id resolves, the child loop is the pure
filter of per-child issues appended to the accumulator. -/
theorem famRelChildLoop_resolved (g : GedcomData) (desc : String) (fb : SDate)
    (children : List String) :
    ∀ acc, (∀ c ∈ children, (dictGet g.individuals c).isSome = true) →
    famRelChildLoop g desc (some fb) children acc =
      Except.ok (acc ++ children.filterMap (fatherChildIssue g desc fb)) := by
  induction children with
  | nil => intro acc _; simp [famRelChildLoop]
  | cons c rest ih =>
    intro acc h
    have hc := h c (by simp)
    obtain ⟨child, hchild⟩ := Option.isSome_iff_exists.mp hc
    have hrest : ∀ x ∈ rest, (dictGet g.individuals x).isSome = true :=
      fun x hx => h x (by simp [hx])
    cases hb : child.birth.bind Event.date with
    | none =>
      simp only [famRelChildLoop, hchild, hb]
      rw [ih acc hrest]
      simp [fatherChildIssue, hchild, hb]
    | some cb =>
      by_cases hlt : SDate.lt cb fb
      · simp only [famRelChildLoop, hchild, hb, hlt, if_true]
        rw [ih _ hrest]
        simp [fatherChildIssue, hchild, hb, hlt]
      · simp only [famRelChildLoop, hchild, hb, hlt, if_false]
        rw [ih acc hrest]
        simp [fatherChildIssue, hchild, hb, hlt]

/-- C3 amended: only the husband is evaluated by
`_validate_family_relationships`: with no (truthy) husband id the family
contributes no issue regardless of the wife dates, and with a resolved
husband whose birth date is resolved and all child ids resolving, the
family contributes exactly one Father-born-after-child issue per child
whose resolved birth date the father birth date strictly follows. -/
theorem c3_only_father_checked (g : GedcomData) (fid : String) (fam : Family) :
    (truthyStr fam.husband_id = none →
      validateFamilyRelationshipsFam g fid fam = Except.ok []) ∧
    (∀ (hid : String) (father : Individual) (fb : SDate),
      truthyStr fam.husband_id = some hid →
      dictGet g.individuals hid = some father →
      father.birth.bind Event.date = some fb →
      (∀ c ∈ fam.children_ids, (dictGet g.individuals c).isSome = true) →
      validateFamilyRelationshipsFam g fid fam =
        Except.ok (fam.children_ids.filterMap
          (fatherChildIssue g (familyDescription g fid fam) fb))) := by
  constructor
  · intro h
    simp [validateFamilyRelationshipsFam, h]
  · intro hid father fb hhid hfather hfb hres
    simp only [validateFamilyRelationshipsFam, hhid, hfather, hfb]
    rw [famRelChildLoop_resolved g _ fb fam.children_ids [] hres]
    simp

/-- C3 amended witness: on the father-born-after-child graph the family
contributes exactly the father issue. -/
theorem c3_only_father_checked_witness :
    validateFamilyRelationshipsFam gFatherAfterChild "@F1@"
      { id := "@F1@", husband_id := some "@H@", children_ids := ["@C@"] } =
      Except.ok
        [("Family @F1@ - Father: @H@: Hank, born 2000-01-01, Mother: Unknown" ++
          "\n  Issue: Father born after child (@C@: Kid, born 1990-01-01)")] := by
  have h := (c3_only_father_checked gFatherAfterChild "@F1@"
      { id := "@F1@", husband_id := some "@H@", children_ids := ["@C@"] }).2
    "@H@"
    { id := "@H@", name := "Hank", sex := "M"
      birth := some { type := "Unknown", date := some ⟨2000, 1, 1⟩ } }
    ⟨2000, 1, 1⟩ rfl rfl rfl (by decide)
  exact h.trans rfl

/-- C7 counterexample: a graph with two individual-level date issues and
one issue-free family yields 200 percent, because the extraction takes
the second token of each issue — an individual id for individual-level
issues — while the numerator of the claim (families appearing in an issue)
would be 0. -/
theorem c7_percent_counts_individual_ids :
    validateDataIssues today0 gIndIssuesOnly = Except.ok [indIssue1, indIssue2] ∧
    extractIssueId indIssue1 = "@I1@" ∧
    extractIssueId indIssue2 = "@I2@" ∧
    percentFamiliesWithIssues [indIssue1, indIssue2] gIndIssuesOnly = 200 ∧
    (200 : Rat) ≠ 0 := by
  refine ⟨rfl, by decide, by decide, ?_, by norm_num⟩
  have hids : (([indIssue1, indIssue2].map extractIssueId)).dedup.length = 2 := by decide
  simp only [percentFamiliesWithIssues, gIndIssuesOnly, hids]
  norm_num

/-- C7 amended: the summary percentage is 0 whenever the graph has no
families (never a division error), and otherwise equals the number of
distinct ids extracted from the issues (the family id for family-level
issues but the individual id for individual-level date issues) divided
by the total number of families, times 100. -/
theorem c7_percent_formula (issues : List String) (g : GedcomData) :
    (g.families = [] → percentFamiliesWithIssues issues g = 0) ∧
    (g.families ≠ [] → percentFamiliesWithIssues issues g =
      (((issues.map extractIssueId).toFinset.card : Rat) / (g.families.length : Rat)) * 100) := by
  constructor
  · intro h
    simp [percentFamiliesWithIssues, h]
  · intro h
    simp [percentFamiliesWithIssues, h, List.card_toFinset]

/-- C7 amended witness: both branches instantiated concretely. -/
theorem c7_percent_formula_witness :
    percentFamiliesWithIssues [indIssue1, indIssue2] { individuals := [], families := [] } = 0 ∧
    percentFamiliesWithIssues [indIssue1, indIssue2] gIndIssuesOnly =
      ((([indIssue1, indIssue2].map extractIssueId).toFinset.card : Rat) /
        (gIndIssuesOnly.families.length : Rat)) * 100 :=
  ⟨(c7_percent_formula [indIssue1, indIssue2] { individuals := [], families := [] }).1 rfl,
   (c7_percent_formula [indIssue1, indIssue2] gIndIssuesOnly).2 (by simp [gIndIssuesOnly])⟩
